import Mathlib

set_option maxHeartbeats 1000000

/-
Verification development for the AI-Document-Assistant extraction pipeline
(`utils/pdf_processor.py` and `utils/pdf_diagnostic.py`).

External libraries (PyMuPDF/fitz, pdfplumber, PyPDF2, pdf2image, pytesseract,
OpenCV) are modelled as an oracle environment of fallible functions: each
library call either returns a value or fails (`Except Unit`/`Except String`),
matching a Python call that returns or raises.  The Python control flow —
the try/except cascades, the accumulation of `text`/`methods_used`, the
tier gating on `text.strip()` — is embedded verbatim over that oracle.
Python's `str.strip()` is modelled by `pyStrip`.
-/

namespace AIDoc

/-- Model of Python `str.strip()`: drop leading and trailing whitespace. -/
def pyStrip (s : String) : String :=
  String.mk (((s.data.dropWhile Char.isWhitespace).reverse.dropWhile Char.isWhitespace).reverse)

/-- A page image produced by `pdf2image.convert_from_path`: spatial
dimensions, channel count, and an abstract pixel payload. -/
structure Img where
  height : Nat
  width : Nat
  channels : Nat
  payload : Nat
  deriving Repr, DecidableEq

/-- Oracle environment for one document: every external-library call of
`pdf_processor.py`, each fallible exactly where Python may raise.
`cvtGray`, `medianBlur`, `threshold`, `morphClose`, `filter2D` are the
OpenCV pixel transforms (acting on the abstract payload, with their numeric
parameters passed explicitly); `convert` is `pdf2image.convert_from_path`
keyed by DPI; `ocr` is `pytesseract.image_to_string (image, lang, config)`
with config `""` standing for the library default; `fitzPages`,
`plumberPages`, `pypdfPages` are the three direct-extraction backends, each
either failing to open or yielding the per-page `get_text`/`extract_text`
outcomes in page order (a page entry fails where the per-page call would
raise); `split` is the LangChain `RecursiveCharacterTextSplitter`. -/
structure PdfEnv where
  cvtGray : Nat → Nat → Except Unit Nat
  medianBlur : Nat → Nat → Except Unit Nat
  threshold : Nat → Nat → Nat → Nat → Except Unit Nat
  morphClose : Nat → List (List Nat) → Except Unit Nat
  filter2D : Nat → Int → List (List Int) → Except Unit Nat
  convert : Nat → Except Unit (List Img)
  ocr : Img → String → String → Except Unit String
  fitzPages : Except Unit (List (Except Unit String))
  plumberPages : Except Unit (List (Except Unit String))
  pypdfPages : Except Unit (List (Except Unit String))
  split : Nat → Nat → List String → String → List String

/-- `cv2.THRESH_BINARY`. -/
def THRESH_BINARY : Nat := 0

/-- `cv2.THRESH_OTSU`. -/
def THRESH_OTSU : Nat := 8

/-- The 1×1 structuring element `np.ones((1, 1), np.uint8)`. -/
def closeKernel : List (List Nat) := [[1]]

/-- The sharpening kernel `np.array([[-1,-1,-1], [-1,9,-1], [-1,-1,-1]])`. -/
def sharpenKernel : List (List Int) := [[-1, -1, -1], [-1, 9, -1], [-1, -1, -1]]

/-- `preprocess_image_for_ocr` (pdf_processor.py lines 15-45): grayscale
conversion when the array is 3-dimensional (multi-channel), median blur of
aperture 3, Otsu-combined binary threshold `(0, 255)`, morphological closing
with the 1×1 kernel, then the 3×3 sharpening convolution; the whole body is
wrapped in try/except returning the original image on any failure. -/
def preprocess_image_for_ocr (env : PdfEnv) (image : Img) : Img :=
  let gray : Except Unit Nat :=
    if image.channels = 1 then .ok image.payload
    else env.cvtGray image.channels image.payload
  match gray with
  | .error _ => image
  | .ok g =>
    match env.medianBlur g 3 with
    | .error _ => image
    | .ok b =>
      match env.threshold b 0 255 (THRESH_BINARY + THRESH_OTSU) with
      | .error _ => image
      | .ok t =>
        match env.morphClose t closeKernel with
        | .error _ => image
        | .ok m =>
          match env.filter2D m (-1) sharpenKernel with
          | .error _ => image
          | .ok s => { height := image.height, width := image.width, channels := 1, payload := s }

/-- The four OCR configuration presets (pdf_processor.py lines 72-77). -/
def ocr_configs : List String :=
  ["--oem 3 --psm 6", "--oem 3 --psm 4", "--oem 3 --psm 8", "--oem 1 --psm 6"]

/-- The eight OCR attempts for one page, in evaluation order: the four
configs on the untouched image, then the four configs on the preprocessed
image (strategies list, lines 61-64; config loop, lines 79-90). -/
def pageAttempts (env : PdfEnv) (image : Img) : List (Except Unit String) :=
  let pre := preprocess_image_for_ocr env image
  ocr_configs.map (fun c => env.ocr image "eng" c) ++
    ocr_configs.map (fun c => env.ocr pre "eng" c)

/-- One step of the best-result accumulation (lines 80-90): a raising
attempt is skipped; a result replaces the current best only when it is
truthy and its stripped length strictly exceeds the current best's. -/
def betterOcr (best : String) (r : Except Unit String) : String :=
  match r with
  | .error _ => best
  | .ok s => if s ≠ "" ∧ (pyStrip best).length < (pyStrip s).length then s else best

/-- The `page_text` kept for one page after folding all attempts. -/
def bestAttempt (rs : List (Except Unit String)) : String :=
  rs.foldl betterOcr ""

/-- Specification-side rendering of §4.4: among the successful attempts
whose trimmed text is non-empty, keep the one of greatest trimmed length,
ties resolved in favor of the earliest attempt; `""` when none qualifies. -/
def specBestOcr : List (Except Unit String) → String
  | [] => ""
  | .error _ :: rest => specBestOcr rest
  | .ok s :: rest =>
    let r := specBestOcr rest
    if 0 < (pyStrip s).length ∧ (pyStrip r).length ≤ (pyStrip s).length then s else r

/-- The page delimiter `f"--- Page {i+1} ---\n{page_text}\n\n"`. -/
def pageHeader (n : Nat) (body : String) : String :=
  "--- Page " ++ toString n ++ " ---\n" ++ body ++ "\n\n"

/-- The main per-page loop of `extract_text_with_enhanced_ocr`
(lines 57-99): pages in order, each contributing its best attempt when the
stripped text is non-empty. -/
def ocrPagesLoop (env : PdfEnv) : String → Nat → List Img → String
  | acc, _, [] => acc
  | acc, i, image :: rest =>
    let pt := bestAttempt (pageAttempts env image)
    ocrPagesLoop env (if pyStrip pt = "" then acc else acc ++ pageHeader (i + 1) pt) (i + 1) rest

/-- The reduced-fallback loop (lines 105-109): one default-config OCR call
per page; the enclosing bare `except` aborts the whole loop at the first
page whose OCR raises, keeping the text accumulated so far. -/
def ocrFallbackLoop (env : PdfEnv) : String → Nat → List Img → String
  | acc, _, [] => acc
  | acc, i, image :: rest =>
    match env.ocr image "eng" "" with
    | .error _ => acc
    | .ok pt =>
      ocrFallbackLoop env (if pyStrip pt = "" then acc else acc ++ pageHeader (i + 1) pt) (i + 1) rest

/-- The reduced fallback (lines 103-111): rasterize at 200 DPI and run one
default OCR configuration per page; any failure yields what was
accumulated. -/
def ocrFallback (env : PdfEnv) : String :=
  match env.convert 200 with
  | .error _ => ""
  | .ok images => ocrFallbackLoop env "" 0 images

/-- `extract_text_with_enhanced_ocr` (lines 47-113): rasterize at the given
DPI and run the per-page strategy search; if the rasterization (the only
call in the pipeline not guarded by an inner handler) raises, fall back to
the reduced 200 DPI path. -/
def extract_text_with_enhanced_ocr (env : PdfEnv) (dpi : Nat) : String :=
  match env.convert dpi with
  | .ok images => ocrPagesLoop env "" 0 images
  | .error _ => ocrFallback env

/-- The per-page loop shared by the three direct backends (lines 122-156):
each page with truthy, non-whitespace text appends that text plus a newline
and appends the backend name to `methods`; a page-level raise aborts the
backend, keeping what was accumulated. -/
def runMethodPages (name : String) : String × List String → List (Except Unit String) → String × List String
  | acc, [] => acc
  | acc, .error _ :: _ => acc
  | acc, .ok pt :: rest =>
    runMethodPages name
      (if pt ≠ "" ∧ pyStrip pt ≠ "" then (acc.1 ++ pt ++ "\n", acc.2 ++ [name]) else acc) rest

/-- One direct backend: an open failure leaves the accumulator untouched. -/
def runMethod (name : String) (acc : String × List String)
    (opened : Except Unit (List (Except Unit String))) : String × List String :=
  match opened with
  | .error _ => acc
  | .ok pages => runMethodPages name acc pages

/-- `try_direct_text_extraction` (lines 115-158): PyMuPDF, then pdfplumber
only if the accumulated text strips to empty, then PyPDF2 under the same
gate. -/
def try_direct_text_extraction (env : PdfEnv) : String × List String :=
  let r1 := runMethod "PyMuPDF" ("", []) env.fitzPages
  let r2 := if pyStrip r1.1 = "" then runMethod "pdfplumber" r1 env.plumberPages else r1
  if pyStrip r2.1 = "" then runMethod "PyPDF2" r2 env.pypdfPages else r2

/-- The multi-language tier loop (lines 196-204): per page, OCR with the
combined language pack under the default config; a raising page is skipped
(its inner `except` continues the loop). -/
def multiLangLoop (env : PdfEnv) : String × List String → Nat → List Img → String × List String
  | acc, _, [] => acc
  | acc, i, image :: rest =>
    let acc2 :=
      match env.ocr image "eng+fra+deu+spa" "" with
      | .error _ => acc
      | .ok pt =>
        if pyStrip pt = "" then acc
        else (acc.1 ++ pageHeader (i + 1) pt, acc.2 ++ ["Multi-language OCR"])
    multiLangLoop env acc2 (i + 1) rest

/-- The multi-language tier (lines 194-206): rasterize at 300 DPI; a
rasterization failure contributes nothing. -/
def multiLangOcr (env : PdfEnv) : String × List String :=
  match env.convert 300 with
  | .error _ => ("", [])
  | .ok images => multiLangLoop env ("", []) 0 images

/-- Result of `extract_text_from_pdf` together with the `methods_used`
provenance variable it maintains and the final existence state of the
scoped temporary file. -/
structure ExtractOut where
  text : String
  methods_used : List String
  tmpExists : Bool
  deriving Repr, DecidableEq

/-- `extract_text_from_pdf` (lines 160-218): save the upload to a temporary
file, then the four-tier cascade — direct extraction; standard OCR at
300 DPI if the text strips to empty (appending "OCR" when it contributes);
high-DPI OCR at 400 DPI under the same gate (appending "High-DPI OCR");
multi-language OCR appending per contributing page — and finally delete the
temporary file if it exists.  Every external failure mode is carried by the
oracle, so the function is total: no input makes it raise. -/
def extract_text_from_pdf (env : PdfEnv) : ExtractOut :=
  let tmpExists := true
  let r1 := try_direct_text_extraction env
  let r2 :=
    if pyStrip r1.1 = "" then
      let t := extract_text_with_enhanced_ocr env 300
      (t, if pyStrip t ≠ "" then r1.2 ++ ["OCR"] else r1.2)
    else r1
  let r3 :=
    if pyStrip r2.1 = "" then
      let t := extract_text_with_enhanced_ocr env 400
      (t, if pyStrip t ≠ "" then r2.2 ++ ["High-DPI OCR"] else r2.2)
    else r2
  let r4 :=
    if pyStrip r3.1 = "" then
      let ml := multiLangOcr env
      (r3.1 ++ ml.1, r3.2 ++ ml.2)
    else r3
  { text := r4.1, methods_used := r4.2, tmpExists := if tmpExists then false else tmpExists }

/-- The separator list handed to `RecursiveCharacterTextSplitter`. -/
def chunkSeparators : List String := ["\n\n", "\n", " ", ""]

/-- `chunk_text` (lines 220-242): raise `ValueError` when the text is falsy
or strips to empty, otherwise split the stripped text with the configured
splitter. -/
def chunk_text (env : PdfEnv) (text : String) (chunk_size chunk_overlap : Nat) :
    Except String (List String) :=
  if text = "" ∨ pyStrip text = "" then
    .error "No text extracted from PDF using any method."
  else
    .ok (env.split chunk_size chunk_overlap chunkSeparators (pyStrip text))

/-- One page as seen by `analyze_pdf`, with each of the three per-page
library calls fallible where the Python call can raise: `text` is the
`load_page`/`get_text` outcome (a failure of either aborts the scan with
its message), `imageList` the `get_images` outcome, and `blocks` the block
type codes of `get_text("dict")`. -/
structure DiagPage where
  text : Except String String
  imageList : Except String (List Nat)
  blocks : Except String (List Nat)
  deriving Repr

/-- A successfully opened fitz document. -/
structure DiagDoc where
  encrypted : Bool
  pages : List DiagPage
  deriving Repr

/-- Oracle for `pdf_diagnostic.py`: the size the temporary copy of the
input has on disk, and the outcome of `fitz.open` (the fallible call the
`try` guards), carrying the exception message on failure. -/
structure DiagEnv where
  fileSize : Nat
  openDoc : Except String DiagDoc

/-- The report dictionary of `analyze_pdf`. -/
structure DiagnosticReport where
  has_text : Bool
  has_images : Bool
  page_count : Nat
  file_size : Nat
  is_encrypted : Bool
  analysis : String
  deriving Repr, DecidableEq

/-- The per-page scan loop (pdf_diagnostic.py lines 31-50): for each page
in order, OR-accumulate `has_text` from the truthy stripped page text or a
type-0 block, `has_images` from a non-empty image list or a type-1 block;
the first per-page call that raises aborts the whole scan, keeping the
flags accumulated up to that point and carrying the exception message
(second component `some e`). -/
def scanPages : Bool × Bool → List DiagPage → (Bool × Bool) × Option String
  | acc, [] => (acc, none)
  | acc, page :: rest =>
    match page.text with
    | .error e => (acc, some e)
    | .ok t =>
      let ht := acc.1 || (decide (t ≠ "") && decide (pyStrip t ≠ ""))
      match page.imageList with
      | .error e => ((ht, acc.2), some e)
      | .ok il =>
        let hi := acc.2 || !il.isEmpty
        match page.blocks with
        | .error e => ((ht, hi), some e)
        | .ok bs =>
          scanPages (ht || bs.any (fun b => b == 0), hi || bs.any (fun b => b == 1)) rest

/-- `analyze_pdf` (pdf_diagnostic.py lines 7-68): zero-valued report, then
`file_size` from the written temporary file, then the guarded analysis —
an open failure is encoded into `analysis` with the other fields still at
their zero-values; after a successful open, `page_count` and
`is_encrypted` are recorded and the per-page scan runs: if a page call
raises, the `except` encodes its message into `analysis`, keeping the
fields assigned so far, otherwise the message priority chain runs — and
finally the temporary file is removed if it exists (second component: its
existence state at return). -/
def analyze_pdf (env : DiagEnv) : DiagnosticReport × Bool :=
  let tmpExists := true
  let file_size := env.fileSize
  let report :=
    match env.openDoc with
    | .error e =>
      { has_text := false, has_images := false, page_count := 0,
        file_size := file_size, is_encrypted := false,
        analysis := "Error analyzing PDF: " ++ e }
    | .ok doc =>
      let page_count := doc.pages.length
      let is_encrypted := doc.encrypted
      let scanned := scanPages (false, false) doc.pages
      match scanned.2 with
      | some e =>
        { has_text := scanned.1.1, has_images := scanned.1.2, page_count := page_count,
          file_size := file_size, is_encrypted := is_encrypted,
          analysis := "Error analyzing PDF: " ++ e }
      | none =>
        let flags := scanned.1
        let analysis :=
          if is_encrypted then "PDF is encrypted/protected"
          else if flags.1 then "PDF contains text but extraction failed"
          else if flags.2 && !flags.1 then "PDF appears to be scanned images only"
          else "PDF structure is unusual - may be empty or malformed"
        { has_text := flags.1, has_images := flags.2, page_count := page_count,
          file_size := file_size, is_encrypted := is_encrypted, analysis := analysis }
  (report, if tmpExists then false else tmpExists)

/-- Number of pages a direct backend contributes: pages with truthy,
non-whitespace text occurring before the first page-level failure. -/
def contribCount : List (Except Unit String) → Nat
  | [] => 0
  | .error _ :: _ => 0
  | .ok pt :: rest => (if pt ≠ "" ∧ pyStrip pt ≠ "" then 1 else 0) + contribCount rest

/-- Contribution count of a backend, zero when it fails to open. -/
def methodContrib : Except Unit (List (Except Unit String)) → Nat
  | .error _ => 0
  | .ok ps => contribCount ps

/-- Number of pages the multi-language tier contributes: pages whose
combined-language OCR succeeds with non-whitespace text (a raising page is
skipped, not aborting the loop). -/
def mlContribCount (env : PdfEnv) : List Img → Nat
  | [] => 0
  | image :: rest =>
    (match env.ocr image "eng+fra+deu+spa" "" with
     | .error _ => 0
     | .ok pt => if pyStrip pt = "" then 0 else 1) + mlContribCount env rest

/-- Contribution count of the multi-language tier over the whole document,
zero when the 300 DPI rasterization fails. -/
def mlContrib (env : PdfEnv) : Nat :=
  match env.convert 300 with
  | .error _ => 0
  | .ok images => mlContribCount env images

/-- Environment in which every external call fails: a document no library
can process at all. -/
def noPdf : PdfEnv where
  cvtGray := fun _ _ => .error ()
  medianBlur := fun _ _ => .error ()
  threshold := fun _ _ _ _ => .error ()
  morphClose := fun _ _ => .error ()
  filter2D := fun _ _ _ => .error ()
  convert := fun _ => .error ()
  ocr := fun _ _ _ => .error ()
  fitzPages := .error ()
  plumberPages := .error ()
  pypdfPages := .error ()
  split := fun _ _ _ _ => []

/-- A first sample page image. -/
def imgA : Img := ⟨60, 40, 3, 1⟩

/-- A second, distinct sample page image. -/
def imgB : Img := ⟨60, 40, 3, 2⟩

/-- A two-page document whose text layer PyMuPDF reads on both pages. -/
def envC2 : PdfEnv := { noPdf with fitzPages := .ok [.ok "alpha", .ok "beta"] }

/-- A document where PyMuPDF reads page 1 and raises on page 2, while
pdfplumber could read a page. -/
def envC7 : PdfEnv :=
  { noPdf with fitzPages := .ok [.ok "hello", .error ()],
               plumberPages := .ok [.ok "world"] }

/-- A document that rasterizes fine at 300 DPI (one page on which every OCR
configuration raises) and at 200 DPI (one page whose default-config OCR
succeeds). -/
def envC3a : PdfEnv :=
  { noPdf with
    convert := fun d => if d = 300 then .ok [imgA] else if d = 200 then .ok [imgB] else .error (),
    ocr := fun img _ cfg => if img = imgB ∧ cfg = "" then .ok "RECOVERED" else .error () }

/-- A document whose 300 DPI rasterization raises; at 200 DPI it has two
pages, default-config OCR raising on the first and succeeding on the
second. -/
def envC3b : PdfEnv :=
  { noPdf with
    convert := fun d => if d = 200 then .ok [imgA, imgB] else .error (),
    ocr := fun img _ cfg => if img = imgB ∧ cfg = "" then .ok "SECOND" else .error () }

/-- A 10-byte input that fitz cannot open. -/
def envC4 : DiagEnv := ⟨10, .error "cannot open file"⟩

/-- A document with no text layer whose 300 DPI pages OCR successfully
under every explicit configuration. -/
def envW2 : PdfEnv :=
  { noPdf with
    convert := fun d => if d = 300 then .ok [imgA] else .error (),
    ocr := fun _ _ cfg => if cfg = "" then .error () else .ok "SOME TEXT" }

/-- An encrypted one-page document containing a text block, whose page
scan completes without failure. -/
def docW5 : DiagDoc := ⟨true, [⟨.ok "hello", .ok [], .ok [0]⟩]⟩

/-- Environment wrapping `docW5`. -/
def envW5 : DiagEnv := ⟨99, .ok docW5⟩

/-- An unencrypted zero-page document. -/
def envW5b : DiagEnv := ⟨7, .ok ⟨false, []⟩⟩

/-- A successfully opened, unencrypted one-page document whose `get_text`
succeeds with text but whose `get_images` call raises mid-scan. -/
def docC5 : DiagDoc := ⟨false, [⟨.ok "sometext", .error "broken image list", .ok []⟩]⟩

/-- Environment wrapping `docC5`. -/
def envC5 : DiagEnv := ⟨33, .ok docC5⟩

/-- A two-page document on which only multi-language OCR succeeds: the
direct backends and every explicit-configuration OCR attempt fail, but
both pages OCR under the combined language pack. -/
def envC2b : PdfEnv :=
  { noPdf with
    convert := fun d => if d = 300 then .ok [imgA, imgB] else .error (),
    ocr := fun _ lang _ => if lang = "eng+fra+deu+spa" then .ok "bonjour" else .error () }

/-- A document with native text in PyMuPDF and also text pdfplumber could
read. -/
def envW7 : PdfEnv :=
  { noPdf with fitzPages := .ok [.ok "direct text"],
               plumberPages := .ok [.ok "plumber text"] }

theorem pyStrip_empty : pyStrip "" = "" := rfl

theorem pyStrip_eq_empty_iff (s : String) :
    pyStrip s = "" ↔ ∀ c ∈ s.data, c.isWhitespace := by
  constructor
  · intro h c hc
    have hdata :
        ((s.data.dropWhile Char.isWhitespace).reverse.dropWhile Char.isWhitespace).reverse = [] := by
      have h2 := congrArg String.data h
      simpa [pyStrip] using h2
    rw [List.reverse_eq_nil_iff, List.dropWhile_eq_nil_iff] at hdata
    have hall : ∀ x ∈ s.data.dropWhile Char.isWhitespace, Char.isWhitespace x := by
      intro x hx
      exact hdata x (List.mem_reverse.mpr hx)
    have hsplit :
        s.data.takeWhile Char.isWhitespace ++ s.data.dropWhile Char.isWhitespace = s.data :=
      List.takeWhile_append_dropWhile Char.isWhitespace s.data
    rw [← hsplit] at hc
    rcases List.mem_append.mp hc with h1 | h2
    · exact List.mem_takeWhile_imp h1
    · exact hall _ h2
  · intro h
    have hnil : s.data.dropWhile Char.isWhitespace = [] :=
      List.dropWhile_eq_nil_iff.mpr h
    simp [pyStrip, hnil]

theorem pyStrip_ne_empty_of_ink (s : String) (c : Char) (hc : c ∈ s.data)
    (hw : c.isWhitespace = false) : pyStrip s ≠ "" := by
  intro h
  have := (pyStrip_eq_empty_iff s).mp h c hc
  rw [hw] at this
  exact Bool.false_ne_true this

theorem ne_empty_of_pyStrip_pos (s : String) (h : 0 < (pyStrip s).length) : s ≠ "" := by
  intro hs
  subst hs
  simp [pyStrip_empty] at h

theorem pyStrip_header_append (acc : String) (n : Nat) (body : String) :
    pyStrip (acc ++ pageHeader n body) ≠ "" := by
  apply pyStrip_ne_empty_of_ink _ '-'
  · rw [String.data_append]
    refine List.mem_append_right _ ?_
    unfold pageHeader
    rw [String.data_append, String.data_append, String.data_append, String.data_append]
    refine List.mem_append_left _ (List.mem_append_left _ (List.mem_append_left _
      (List.mem_append_left _ ?_)))
    decide
  · decide

theorem empty_append (s : String) : "" ++ s = s := by
  apply String.ext
  rw [String.data_append]
  rfl

theorem ocrPagesLoop_empty_inv (env : PdfEnv) (l : List Img) :
    ∀ (acc : String) (i : Nat), acc = "" ∨ pyStrip acc ≠ "" →
      (ocrPagesLoop env acc i l = "" ∨ pyStrip (ocrPagesLoop env acc i l) ≠ "") := by
  induction l with
  | nil => intro acc i h; simpa [ocrPagesLoop] using h
  | cons img rest ih =>
    intro acc i h
    simp only [ocrPagesLoop]
    by_cases hw : pyStrip (bestAttempt (pageAttempts env img)) = ""
    · simp only [if_pos hw]
      exact ih acc (i + 1) h
    · simp only [if_neg hw]
      exact ih _ (i + 1) (Or.inr (pyStrip_header_append acc (i + 1) _))

theorem ocrFallbackLoop_empty_inv (env : PdfEnv) (l : List Img) :
    ∀ (acc : String) (i : Nat), acc = "" ∨ pyStrip acc ≠ "" →
      (ocrFallbackLoop env acc i l = "" ∨ pyStrip (ocrFallbackLoop env acc i l) ≠ "") := by
  induction l with
  | nil => intro acc i h; simpa [ocrFallbackLoop] using h
  | cons img rest ih =>
    intro acc i h
    simp only [ocrFallbackLoop]
    cases hr : env.ocr img "eng" "" with
    | error e => exact h
    | ok pt =>
      by_cases hw : pyStrip pt = ""
      · simp only [if_pos hw]
        exact ih acc (i + 1) h
      · simp only [if_neg hw]
        exact ih _ (i + 1) (Or.inr (pyStrip_header_append acc (i + 1) _))

theorem multiLangLoop_empty_inv (env : PdfEnv) (l : List Img) :
    ∀ (acc : String × List String) (i : Nat), acc.1 = "" ∨ pyStrip acc.1 ≠ "" →
      ((multiLangLoop env acc i l).1 = "" ∨ pyStrip (multiLangLoop env acc i l).1 ≠ "") := by
  induction l with
  | nil => intro acc i h; simpa [multiLangLoop] using h
  | cons img rest ih =>
    intro acc i h
    simp only [multiLangLoop]
    cases hr : env.ocr img "eng+fra+deu+spa" "" with
    | error e => exact ih acc (i + 1) h
    | ok pt =>
      by_cases hw : pyStrip pt = ""
      · simp only [if_pos hw]
        exact ih acc (i + 1) h
      · simp only [if_neg hw]
        exact ih _ (i + 1) (Or.inr (pyStrip_header_append acc.1 (i + 1) _))

theorem enhancedOcr_eq_empty (env : PdfEnv) (dpi : Nat)
    (h : pyStrip (extract_text_with_enhanced_ocr env dpi) = "") :
    extract_text_with_enhanced_ocr env dpi = "" := by
  unfold extract_text_with_enhanced_ocr at h ⊢
  cases hc : env.convert dpi with
  | ok imgs =>
    rw [hc] at h
    rcases ocrPagesLoop_empty_inv env imgs "" 0 (Or.inl rfl) with he | hne
    · exact he
    · exact absurd h hne
  | error e =>
    rw [hc] at h
    unfold ocrFallback at h ⊢
    cases hc2 : env.convert 200 with
    | ok imgs =>
      rw [hc2] at h
      rcases ocrFallbackLoop_empty_inv env imgs "" 0 (Or.inl rfl) with he | hne
      · exact he
      · exact absurd h hne
    | error e2 => rfl

theorem multiLang_eq_empty (env : PdfEnv)
    (h : pyStrip (multiLangOcr env).1 = "") : (multiLangOcr env).1 = "" := by
  unfold multiLangOcr at h ⊢
  cases hc : env.convert 300 with
  | ok imgs =>
    rw [hc] at h
    rcases multiLangLoop_empty_inv env imgs ("", []) 0 (Or.inl rfl) with he | hne
    · exact he
    · exact absurd h hne
  | error e => rfl

theorem specBestOcr_empty_or_pos (rs : List (Except Unit String)) :
    specBestOcr rs = "" ∨ 0 < (pyStrip (specBestOcr rs)).length := by
  induction rs with
  | nil => exact Or.inl rfl
  | cons r rest ih =>
    cases r with
    | error e => simpa [specBestOcr] using ih
    | ok s =>
      simp only [specBestOcr]
      by_cases hc : 0 < (pyStrip s).length ∧
          (pyStrip (specBestOcr rest)).length ≤ (pyStrip s).length
      · rw [if_pos hc]
        exact Or.inr hc.1
      · rw [if_neg hc]
        exact ih

theorem foldl_betterOcr_eq (rs : List (Except Unit String)) :
    ∀ b : String, rs.foldl betterOcr b =
      if (pyStrip b).length < (pyStrip (specBestOcr rs)).length then specBestOcr rs else b := by
  induction rs with
  | nil =>
    intro b
    simp [specBestOcr, pyStrip_empty]
  | cons r rest ih =>
    intro b
    cases r with
    | error e =>
      simp only [List.foldl_cons, betterOcr, specBestOcr]
      exact ih b
    | ok s =>
      simp only [List.foldl_cons]
      rw [ih (betterOcr b (.ok s))]
      simp only [betterOcr, specBestOcr]
      by_cases h2 : 0 < (pyStrip s).length ∧
          (pyStrip (specBestOcr rest)).length ≤ (pyStrip s).length
      · rw [if_pos h2]
        have h2a := h2.1
        have h2b := h2.2
        by_cases h1 : s ≠ "" ∧ (pyStrip b).length < (pyStrip s).length
        · rw [if_pos h1,
            if_neg (by omega : ¬ (pyStrip s).length < (pyStrip (specBestOcr rest)).length),
            if_pos h1.2]
        · have hs : s ≠ "" := ne_empty_of_pyStrip_pos s h2a
          have hls : ¬ (pyStrip b).length < (pyStrip s).length := fun hlt => h1 ⟨hs, hlt⟩
          rw [if_neg h1,
            if_neg (by omega : ¬ (pyStrip b).length < (pyStrip (specBestOcr rest)).length),
            if_neg hls]
      · rw [if_neg h2]
        by_cases h1 : s ≠ "" ∧ (pyStrip b).length < (pyStrip s).length
        · have h1b := h1.2
          have hpos : 0 < (pyStrip s).length := by omega
          have hlr : (pyStrip s).length < (pyStrip (specBestOcr rest)).length := by
            by_contra hcon
            exact h2 ⟨hpos, by omega⟩
          rw [if_pos h1, if_pos hlr,
            if_pos (by omega : (pyStrip b).length < (pyStrip (specBestOcr rest)).length)]
        · rw [if_neg h1]

theorem bestAttempt_eq_specBest (rs : List (Except Unit String)) :
    bestAttempt rs = specBestOcr rs := by
  unfold bestAttempt
  rw [foldl_betterOcr_eq rs ""]
  rcases specBestOcr_empty_or_pos rs with h | h
  · rw [h]
    simp [pyStrip_empty]
  · rw [if_pos (by simpa [pyStrip_empty] using h)]

theorem runMethodPages_count (name x : String) (ps : List (Except Unit String)) :
    ∀ acc : String × List String,
      ((runMethodPages name acc ps).2).count x =
        acc.2.count x + (if x = name then contribCount ps else 0) := by
  induction ps with
  | nil => intro acc; simp [runMethodPages, contribCount]
  | cons p rest ih =>
    intro acc
    cases p with
    | error e => simp [runMethodPages, contribCount]
    | ok pt =>
      simp only [runMethodPages, contribCount]
      by_cases hc : pt ≠ "" ∧ pyStrip pt ≠ ""
      · simp only [if_pos hc]
        rw [ih]
        simp only [List.count_append]
        by_cases hx : x = name
        · subst hx
          simp [List.count_cons]
          omega
        · simp [hx, List.count_cons, Ne.symm hx]
      · simp only [if_neg hc]
        rw [ih]
        simp

theorem runMethodPages_mem (name : String) (ps : List (Except Unit String)) :
    ∀ (acc : String × List String) (x : String),
      x ∈ (runMethodPages name acc ps).2 → x ∈ acc.2 ∨ x = name := by
  induction ps with
  | nil => intro acc x hx; exact Or.inl hx
  | cons p rest ih =>
    intro acc x hx
    cases p with
    | error e => exact Or.inl hx
    | ok pt =>
      simp only [runMethodPages] at hx
      by_cases hc : pt ≠ "" ∧ pyStrip pt ≠ ""
      · rw [if_pos hc] at hx
        rcases ih _ x hx with hmem | heq
        · rcases List.mem_append.mp hmem with h | h
          · exact Or.inl h
          · exact Or.inr (List.mem_singleton.mp h)
        · exact Or.inr heq
      · rw [if_neg hc] at hx
        exact ih _ x hx

theorem runMethod_count (name x : String) (acc : String × List String)
    (opened : Except Unit (List (Except Unit String))) :
    ((runMethod name acc opened).2).count x =
      acc.2.count x + (if x = name then methodContrib opened else 0) := by
  cases opened with
  | error e => simp [runMethod, methodContrib]
  | ok ps => simp [runMethod, methodContrib, runMethodPages_count]

theorem runMethod_mem (name : String) (acc : String × List String)
    (opened : Except Unit (List (Except Unit String))) (x : String)
    (hx : x ∈ (runMethod name acc opened).2) : x ∈ acc.2 ∨ x = name := by
  cases opened with
  | error e => exact Or.inl hx
  | ok ps => exact runMethodPages_mem name ps acc x hx

theorem try_direct_count_pymupdf (env : PdfEnv) :
    ((try_direct_text_extraction env).2).count "PyMuPDF" = methodContrib env.fitzPages := by
  unfold try_direct_text_extraction
  have h1 : ((runMethod "PyMuPDF" ("", []) env.fitzPages).2).count "PyMuPDF" =
      methodContrib env.fitzPages := by
    rw [runMethod_count]
    simp
  by_cases g2 : pyStrip (runMethod "PyMuPDF" ("", []) env.fitzPages).1 = ""
  · simp only [if_pos g2]
    by_cases g3 : pyStrip (runMethod "pdfplumber"
        (runMethod "PyMuPDF" ("", []) env.fitzPages) env.plumberPages).1 = ""
    · simp only [if_pos g3]
      rw [runMethod_count, runMethod_count, if_neg (by decide : ¬ ("PyMuPDF" : String) = "PyPDF2"),
        if_neg (by decide : ¬ ("PyMuPDF" : String) = "pdfplumber")]
      simpa using h1
    · simp only [if_neg g3]
      rw [runMethod_count, if_neg (by decide : ¬ ("PyMuPDF" : String) = "pdfplumber")]
      simpa using h1
  · simp only [if_neg g2]
    exact h1

theorem try_direct_mem (env : PdfEnv) (x : String)
    (hx : x ∈ (try_direct_text_extraction env).2) :
    x = "PyMuPDF" ∨ x = "pdfplumber" ∨ x = "PyPDF2" := by
  simp only [try_direct_text_extraction] at hx
  by_cases g2 : pyStrip (runMethod "PyMuPDF" ("", []) env.fitzPages).1 = ""
  · rw [if_pos g2] at hx
    by_cases g3 : pyStrip (runMethod "pdfplumber"
        (runMethod "PyMuPDF" ("", []) env.fitzPages) env.plumberPages).1 = ""
    · rw [if_pos g3] at hx
      rcases runMethod_mem _ _ _ _ hx with h | h
      · rcases runMethod_mem _ _ _ _ h with h2 | h2
        · rcases runMethod_mem _ _ _ _ h2 with h3 | h3
          · simp at h3
          · exact Or.inl h3
        · exact Or.inr (Or.inl h2)
      · exact Or.inr (Or.inr h)
    · rw [if_neg g3] at hx
      rcases runMethod_mem _ _ _ _ hx with h | h
      · rcases runMethod_mem _ _ _ _ h with h2 | h2
        · simp at h2
        · exact Or.inl h2
      · exact Or.inr (Or.inl h)
  · rw [if_neg g2, if_neg g2] at hx
    rcases runMethod_mem _ _ _ _ hx with h | h
    · simp at h
    · exact Or.inl h

theorem try_direct_count_other (env : PdfEnv) (x : String)
    (h1 : x ≠ "PyMuPDF") (h2 : x ≠ "pdfplumber") (h3 : x ≠ "PyPDF2") :
    ((try_direct_text_extraction env).2).count x = 0 :=
  List.count_eq_zero.mpr fun hm => by
    rcases try_direct_mem env x hm with h | h | h
    exacts [h1 h, h2 h, h3 h]

theorem multiLangLoop_mem (env : PdfEnv) (l : List Img) :
    ∀ (acc : String × List String) (i : Nat) (x : String),
      x ∈ (multiLangLoop env acc i l).2 → x ∈ acc.2 ∨ x = "Multi-language OCR" := by
  induction l with
  | nil => intro acc i x hx; exact Or.inl hx
  | cons img rest ih =>
    intro acc i x hx
    simp only [multiLangLoop] at hx
    cases hr : env.ocr img "eng+fra+deu+spa" "" with
    | error e =>
      rw [hr] at hx
      exact ih acc (i + 1) x hx
    | ok pt =>
      rw [hr] at hx
      by_cases hw : pyStrip pt = ""
      · simp only [if_pos hw] at hx
        exact ih acc (i + 1) x hx
      · simp only [if_neg hw] at hx
        rcases ih _ (i + 1) x hx with hmem | heq
        · rcases List.mem_append.mp hmem with h | h
          · exact Or.inl h
          · exact Or.inr (List.mem_singleton.mp h)
        · exact Or.inr heq

theorem multiLang_count_other (env : PdfEnv) (x : String)
    (hx : x ≠ "Multi-language OCR") : ((multiLangOcr env).2).count x = 0 := by
  apply List.count_eq_zero.mpr
  intro hm
  unfold multiLangOcr at hm
  cases hc : env.convert 300 with
  | error e =>
    rw [hc] at hm
    simp at hm
  | ok imgs =>
    rw [hc] at hm
    rcases multiLangLoop_mem env imgs ("", []) 0 x hm with h | h
    · simp at h
    · exact hx h

theorem multiLangLoop_count (env : PdfEnv) (l : List Img) :
    ∀ (acc : String × List String) (i : Nat),
      ((multiLangLoop env acc i l).2).count "Multi-language OCR" =
        acc.2.count "Multi-language OCR" + mlContribCount env l := by
  induction l with
  | nil => intro acc i; simp [multiLangLoop, mlContribCount]
  | cons img rest ih =>
    intro acc i
    simp only [multiLangLoop, mlContribCount]
    cases hr : env.ocr img "eng+fra+deu+spa" "" with
    | error e =>
      rw [ih]
      simp
    | ok pt =>
      by_cases hw : pyStrip pt = ""
      · simp only [if_pos hw]
        rw [ih]
        simp
      · simp only [if_neg hw]
        rw [ih]
        simp [List.count_append, List.count_cons]
        omega

theorem multiLang_count_self (env : PdfEnv) :
    ((multiLangOcr env).2).count "Multi-language OCR" = mlContrib env := by
  unfold multiLangOcr mlContrib
  cases hc : env.convert 300 with
  | error e => simp
  | ok imgs =>
    rw [multiLangLoop_count]
    simp

theorem try_direct_count_plumber (env : PdfEnv) :
    ((try_direct_text_extraction env).2).count "pdfplumber" =
      if pyStrip (runMethod "PyMuPDF" ("", []) env.fitzPages).1 = ""
      then methodContrib env.plumberPages else 0 := by
  have h0 : ((runMethod "PyMuPDF" ("", []) env.fitzPages).2).count "pdfplumber" = 0 := by
    rw [runMethod_count, if_neg (by decide : ¬ ("pdfplumber" : String) = "PyMuPDF")]
    simp
  unfold try_direct_text_extraction
  by_cases g2 : pyStrip (runMethod "PyMuPDF" ("", []) env.fitzPages).1 = ""
  · simp only [if_pos g2]
    by_cases g3 : pyStrip (runMethod "pdfplumber"
        (runMethod "PyMuPDF" ("", []) env.fitzPages) env.plumberPages).1 = ""
    · simp only [if_pos g3]
      rw [runMethod_count, if_neg (by decide : ¬ ("pdfplumber" : String) = "PyPDF2"),
        runMethod_count, if_pos rfl, h0]
      simp
    · simp only [if_neg g3]
      rw [runMethod_count, if_pos rfl, h0]
      simp
  · simp only [if_neg g2]
    exact h0

theorem try_direct_count_pypdf (env : PdfEnv) :
    ((try_direct_text_extraction env).2).count "PyPDF2" =
      if pyStrip (if pyStrip (runMethod "PyMuPDF" ("", []) env.fitzPages).1 = ""
          then runMethod "pdfplumber" (runMethod "PyMuPDF" ("", []) env.fitzPages)
            env.plumberPages
          else runMethod "PyMuPDF" ("", []) env.fitzPages).1 = ""
      then methodContrib env.pypdfPages else 0 := by
  have h0 : ((runMethod "PyMuPDF" ("", []) env.fitzPages).2).count "PyPDF2" = 0 := by
    rw [runMethod_count, if_neg (by decide : ¬ ("PyPDF2" : String) = "PyMuPDF")]
    simp
  unfold try_direct_text_extraction
  by_cases g2 : pyStrip (runMethod "PyMuPDF" ("", []) env.fitzPages).1 = ""
  · simp only [if_pos g2]
    have h1 : ((runMethod "pdfplumber" (runMethod "PyMuPDF" ("", []) env.fitzPages)
        env.plumberPages).2).count "PyPDF2" = 0 := by
      rw [runMethod_count, if_neg (by decide : ¬ ("PyPDF2" : String) = "pdfplumber"), h0]
    by_cases g3 : pyStrip (runMethod "pdfplumber"
        (runMethod "PyMuPDF" ("", []) env.fitzPages) env.plumberPages).1 = ""
    · simp only [if_pos g3]
      rw [runMethod_count, if_pos rfl, h1]
      simp
    · simp only [if_neg g3]
      exact h1
  · simp only [if_neg g2]
    exact h0

/-- C1: `extract_text_from_pdf` attempts the four tiers — direct
extraction, standard OCR at 300 DPI, high-DPI OCR at 400 DPI,
multi-language OCR — strictly in that order, entering each later tier only
if the text of all prior tiers strips to empty; if every tier yields
whitespace-only text the result is the empty string.  The statement
quantifies over every oracle, i.e. over every combination of internal
failures, and `extract_text_from_pdf` is a total function of the oracle:
no failure mode reaches the caller. -/
theorem extract_tier_cascade (env : PdfEnv) :
    ((extract_text_from_pdf env).text =
      if pyStrip (try_direct_text_extraction env).1 ≠ "" then
        (try_direct_text_extraction env).1
      else if pyStrip (extract_text_with_enhanced_ocr env 300) ≠ "" then
        extract_text_with_enhanced_ocr env 300
      else if pyStrip (extract_text_with_enhanced_ocr env 400) ≠ "" then
        extract_text_with_enhanced_ocr env 400
      else (multiLangOcr env).1) ∧
    (pyStrip (try_direct_text_extraction env).1 = "" →
      pyStrip (extract_text_with_enhanced_ocr env 300) = "" →
      pyStrip (extract_text_with_enhanced_ocr env 400) = "" →
      pyStrip (multiLangOcr env).1 = "" →
      (extract_text_from_pdf env).text = "") := by
  constructor
  · by_cases h1 : pyStrip (try_direct_text_extraction env).1 = ""
    · by_cases h2 : pyStrip (extract_text_with_enhanced_ocr env 300) = ""
      · by_cases h3 : pyStrip (extract_text_with_enhanced_ocr env 400) = ""
        · have ht3 := enhancedOcr_eq_empty env 400 h3
          simp [extract_text_from_pdf, h1, h2, h3, ht3, empty_append, pyStrip_empty]
        · simp [extract_text_from_pdf, h1, h2, h3]
      · simp [extract_text_from_pdf, h1, h2]
    · simp [extract_text_from_pdf, h1]
  · intro h1 h2 h3 h4
    have ht3 := enhancedOcr_eq_empty env 400 h3
    have ht4 := multiLang_eq_empty env h4
    simp [extract_text_from_pdf, h1, h2, h3, ht3, ht4, empty_append, pyStrip_empty]

/-- C1 witness: on a document every library call fails on, every tier
strips to empty and the extraction result is the empty string. -/
theorem extract_tier_cascade_witness : (extract_text_from_pdf noPdf).text = "" :=
  (extract_tier_cascade noPdf).2 (by decide) (by decide) (by decide) (by decide)

/-- C6: for every page, the OCR strategy runner evaluates exactly eight
attempts (two preprocessing variants times four configurations) and keeps
the attempt of greatest trimmed length, ties to the earliest attempt, with
raising attempts skipped and the remaining attempts still evaluated —
`bestAttempt` over the attempt list coincides with the specification-side
`specBestOcr` for the full eight-attempt list. -/
theorem ocr_best_attempt_spec (env : PdfEnv) (image : Img) :
    (pageAttempts env image).length = 8 ∧
    bestAttempt (pageAttempts env image) = specBestOcr (pageAttempts env image) :=
  ⟨by simp [pageAttempts, ocr_configs], bestAttempt_eq_specBest _⟩

/-- C8: both `analyze_pdf` and `extract_text_from_pdf` delete their scoped
temporary file before returning, for every oracle outcome — in the model
every internal failure is a value of the oracle, so every exit path runs
the final cleanup and the temporary artifact no longer exists at return. -/
theorem temp_file_cleanup :
    (∀ env : DiagEnv, (analyze_pdf env).2 = false) ∧
    (∀ env : PdfEnv, (extract_text_from_pdf env).tmpExists = false) :=
  ⟨fun _ => rfl, fun _ => rfl⟩

/-- C9: `preprocess_image_for_ocr` never raises — on any internal failure
it returns the original image unmodified — and on success it returns a
single-channel image of the same spatial dimensions, produced by the fixed
pipeline grayscale, median blur (aperture 3), Otsu-combined binary
threshold, morphological closing with the 1×1 kernel, and the 3×3
sharpening kernel with center 9 and neighbors −1. -/
theorem preprocess_shape_safe (env : PdfEnv) (image : Img) :
    preprocess_image_for_ocr env image = image ∨
    ((preprocess_image_for_ocr env image).height = image.height ∧
     (preprocess_image_for_ocr env image).width = image.width ∧
     (preprocess_image_for_ocr env image).channels = 1 ∧
     ∃ g b t m s,
       ((image.channels = 1 ∧ g = image.payload) ∨
        (image.channels ≠ 1 ∧ env.cvtGray image.channels image.payload = .ok g)) ∧
       env.medianBlur g 3 = .ok b ∧
       env.threshold b 0 255 (THRESH_BINARY + THRESH_OTSU) = .ok t ∧
       env.morphClose t closeKernel = .ok m ∧
       env.filter2D m (-1) sharpenKernel = .ok s ∧
       preprocess_image_for_ocr env image =
         { height := image.height, width := image.width, channels := 1, payload := s }) := by
  by_cases hch : image.channels = 1
  · cases h2 : env.medianBlur image.payload 3 with
    | error e => exact Or.inl (by simp [preprocess_image_for_ocr, hch, h2])
    | ok b =>
      cases h3 : env.threshold b 0 255 (THRESH_BINARY + THRESH_OTSU) with
      | error e => exact Or.inl (by simp [preprocess_image_for_ocr, hch, h2, h3])
      | ok t =>
        cases h4 : env.morphClose t closeKernel with
        | error e => exact Or.inl (by simp [preprocess_image_for_ocr, hch, h2, h3, h4])
        | ok m =>
          cases h5 : env.filter2D m (-1) sharpenKernel with
          | error e => exact Or.inl (by simp [preprocess_image_for_ocr, hch, h2, h3, h4, h5])
          | ok s =>
            have hres : preprocess_image_for_ocr env image =
                { height := image.height, width := image.width, channels := 1, payload := s } := by
              simp [preprocess_image_for_ocr, hch, h2, h3, h4, h5]
            exact Or.inr ⟨by rw [hres], by rw [hres], by rw [hres],
              image.payload, b, t, m, s, Or.inl ⟨hch, rfl⟩, h2, h3, h4, h5, hres⟩
  · cases hg : env.cvtGray image.channels image.payload with
    | error e => exact Or.inl (by simp [preprocess_image_for_ocr, hch, hg])
    | ok g =>
      cases h2 : env.medianBlur g 3 with
      | error e => exact Or.inl (by simp [preprocess_image_for_ocr, hch, hg, h2])
      | ok b =>
        cases h3 : env.threshold b 0 255 (THRESH_BINARY + THRESH_OTSU) with
        | error e => exact Or.inl (by simp [preprocess_image_for_ocr, hch, hg, h2, h3])
        | ok t =>
          cases h4 : env.morphClose t closeKernel with
          | error e => exact Or.inl (by simp [preprocess_image_for_ocr, hch, hg, h2, h3, h4])
          | ok m =>
            cases h5 : env.filter2D m (-1) sharpenKernel with
            | error e =>
              exact Or.inl (by simp [preprocess_image_for_ocr, hch, hg, h2, h3, h4, h5])
            | ok s =>
              have hres : preprocess_image_for_ocr env image =
                  { height := image.height, width := image.width, channels := 1, payload := s } := by
                simp [preprocess_image_for_ocr, hch, hg, h2, h3, h4, h5]
              exact Or.inr ⟨by rw [hres], by rw [hres], by rw [hres],
                g, b, t, m, s, Or.inr ⟨hch, rfl⟩, h2, h3, h4, h5, hres⟩

/-- C10: `chunk_text` fails with the `ValueError` message exactly when its
input is empty or whitespace-only, and on any input with a non-whitespace
character it returns the splitter's chunks of the stripped text. -/
theorem chunk_text_spec (env : PdfEnv) (text : String) (cs co : Nat) :
    ((∃ l, chunk_text env text cs co = .ok l) ↔ pyStrip text ≠ "") ∧
    (pyStrip text ≠ "" →
      chunk_text env text cs co = .ok (env.split cs co chunkSeparators (pyStrip text))) ∧
    (pyStrip text = "" →
      chunk_text env text cs co = .error "No text extracted from PDF using any method.") := by
  have hcond : (text = "" ∨ pyStrip text = "") ↔ pyStrip text = "" := by
    constructor
    · rintro (h | h)
      · rw [h]
        exact pyStrip_empty
      · exact h
    · exact Or.inr
  unfold chunk_text
  by_cases h : pyStrip text = ""
  · rw [if_pos (hcond.mpr h)]
    refine ⟨?_, fun hn => absurd h hn, fun _ => rfl⟩
    simp [h]
  · rw [if_neg (fun hc => h (hcond.mp hc))]
    refine ⟨?_, fun _ => rfl, fun he => absurd he h⟩
    simp [h]

/-- C10 witness: a padded two-character input is accepted and split after
stripping. -/
theorem chunk_text_spec_witness :
    chunk_text noPdf "  hi  " 800 150 = .ok (noPdf.split 800 150 chunkSeparators "hi") :=
  (chunk_text_spec noPdf "  hi  " 800 150).2.1 (by decide)

/-- C4 counterexample: a 10-byte input fitz cannot open yields the error
message, but `file_size` is 10, not the zero-value 0 the claim states —
the size is assigned from the written temporary file before the guarded
analysis begins. -/
theorem analyze_error_file_size_cex :
    (analyze_pdf envC4).1.analysis = "Error analyzing PDF: cannot open file" ∧
    (analyze_pdf envC4).1.file_size = 10 ∧
    (analyze_pdf envC4).1.file_size ≠ 0 := by
  refine ⟨by decide, by decide, by decide⟩

/-- C4 as amended: `analyze_pdf` never raises (it is total over every
oracle), and when the document fails to open the report carries the
message `Error analyzing PDF: <cause>` with `page_count`, `is_encrypted`,
`has_text`, `has_images` at their zero-values, while `file_size` holds the
input's size. -/
theorem analyze_error_fields (env : DiagEnv) (e : String)
    (h : env.openDoc = .error e) :
    (analyze_pdf env).1 =
      { has_text := false, has_images := false, page_count := 0,
        file_size := env.fileSize, is_encrypted := false,
        analysis := "Error analyzing PDF: " ++ e } := by
  simp [analyze_pdf, h]

/-- C4 witness: the amended statement evaluated on the concrete unopenable
10-byte document. -/
theorem analyze_error_fields_witness :
    (analyze_pdf envC4).1 =
      { has_text := false, has_images := false, page_count := 0,
        file_size := 10, is_encrypted := false,
        analysis := "Error analyzing PDF: " ++ "cannot open file" } :=
  analyze_error_fields envC4 "cannot open file" rfl

/-- C5 counterexample: `envC5` opens successfully, is unencrypted, and its
page's `get_text` succeeds with text — so the claimed priority derivation
would report "PDF contains text but extraction failed" — but the page's
`get_images` call raises mid-scan, landing in the `except`, and the
message is "Error analyzing PDF: <cause>" instead of any priority-derived
message, with the flags set before the failure retained. -/
theorem analyze_priority_cex :
    envC5.openDoc = .ok docC5 ∧
    (analyze_pdf envC5).1.has_text = true ∧
    (analyze_pdf envC5).1.is_encrypted = false ∧
    (analyze_pdf envC5).1.analysis = "Error analyzing PDF: broken image list" ∧
    (analyze_pdf envC5).1.analysis ≠ "PDF contains text but extraction failed" :=
  ⟨rfl, by decide, by decide, by decide, by decide⟩

/-- C5 as amended: for every successfully opened document whose page scan
completes without an internal failure, `analyze_pdf` derives its message
by the fixed priority encrypted > text-but-failing > scanned >
malformed/empty — an encrypted document reports encryption regardless of
its contents, and a zero-page unencrypted document yields the
unusual-structure report with all flags false and page count 0; when a
per-page call raises after a successful open, the message is
"Error analyzing PDF: <cause>" and the report keeps the fields assigned
before the failure (page count, encryption flag, and the flags accumulated
over the pages scanned so far). -/
theorem analyze_priority :
    (∀ (env : DiagEnv) (doc : DiagDoc), env.openDoc = .ok doc →
      (scanPages (false, false) doc.pages).2 = none →
      ((analyze_pdf env).1.analysis =
        if (analyze_pdf env).1.is_encrypted then "PDF is encrypted/protected"
        else if (analyze_pdf env).1.has_text then "PDF contains text but extraction failed"
        else if (analyze_pdf env).1.has_images then "PDF appears to be scanned images only"
        else "PDF structure is unusual - may be empty or malformed") ∧
      (doc.encrypted = true → (analyze_pdf env).1.analysis = "PDF is encrypted/protected") ∧
      (doc.pages = [] → doc.encrypted = false →
        (analyze_pdf env).1 =
          { has_text := false, has_images := false, page_count := 0,
            file_size := env.fileSize, is_encrypted := false,
            analysis := "PDF structure is unusual - may be empty or malformed" })) ∧
    (∀ (env : DiagEnv) (doc : DiagDoc) (e : String), env.openDoc = .ok doc →
      (scanPages (false, false) doc.pages).2 = some e →
      (analyze_pdf env).1 =
        { has_text := (scanPages (false, false) doc.pages).1.1,
          has_images := (scanPages (false, false) doc.pages).1.2,
          page_count := doc.pages.length, file_size := env.fileSize,
          is_encrypted := doc.encrypted,
          analysis := "Error analyzing PDF: " ++ e }) := by
  constructor
  · intro env doc h hscan
    refine ⟨?_, ?_, ?_⟩
    · cases henc : doc.encrypted <;>
        cases hft : (scanPages (false, false) doc.pages).1.1 <;>
          cases hfi : (scanPages (false, false) doc.pages).1.2 <;>
            simp [analyze_pdf, h, hscan, henc, hft, hfi]
    · intro henc
      simp [analyze_pdf, h, hscan, henc]
    · intro hp henc
      simp [analyze_pdf, h, hscan, henc, hp, scanPages]
  · intro env doc e h hscan
    simp [analyze_pdf, h, hscan]

/-- C5 witness: the encrypted one-page document reports encryption, the
unencrypted zero-page document yields the unusual-structure report, and
the document whose scan raises yields the error message. -/
theorem analyze_priority_witness :
    (analyze_pdf envW5).1.analysis = "PDF is encrypted/protected" ∧
    (analyze_pdf envW5b).1 =
      { has_text := false, has_images := false, page_count := 0,
        file_size := 7, is_encrypted := false,
        analysis := "PDF structure is unusual - may be empty or malformed" } ∧
    (analyze_pdf envC5).1 =
      { has_text := true, has_images := false, page_count := 1,
        file_size := 33, is_encrypted := false,
        analysis := "Error analyzing PDF: " ++ "broken image list" } :=
  ⟨(analyze_priority.1 envW5 docW5 rfl (by decide)).2.1 rfl,
   (analyze_priority.1 envW5b ⟨false, []⟩ rfl (by decide)).2.2 rfl rfl,
   analyze_priority.2 envC5 docC5 "broken image list" rfl (by decide)⟩

theorem extract_methods_shape (env : PdfEnv) :
    (extract_text_from_pdf env).methods_used = (try_direct_text_extraction env).2 ∨
    (extract_text_from_pdf env).methods_used = (try_direct_text_extraction env).2 ++ ["OCR"] ∨
    (extract_text_from_pdf env).methods_used =
      (try_direct_text_extraction env).2 ++ ["High-DPI OCR"] ∨
    (extract_text_from_pdf env).methods_used =
      (try_direct_text_extraction env).2 ++ (multiLangOcr env).2 := by
  by_cases g1 : pyStrip (try_direct_text_extraction env).1 = ""
  · by_cases g2 : pyStrip (extract_text_with_enhanced_ocr env 300) = ""
    · by_cases g3 : pyStrip (extract_text_with_enhanced_ocr env 400) = ""
      · exact Or.inr (Or.inr (Or.inr (by simp [extract_text_from_pdf, g1, g2, g3])))
      · exact Or.inr (Or.inr (Or.inl (by simp [extract_text_from_pdf, g1, g2, g3])))
    · exact Or.inr (Or.inl (by simp [extract_text_from_pdf, g1, g2]))
  · exact Or.inl (by simp [extract_text_from_pdf, g1])

/-- C2 counterexample: a document whose text layer PyMuPDF reads on two
pages yields `methods_used = ["PyMuPDF", "PyMuPDF"]` — the backend name is
recorded once per contributing page, not "exactly one backend name" as the
claim states; and a two-page document only multi-language OCR can read
yields `["Multi-language OCR", "Multi-language OCR"]` — that tier too
appends per contributing page, not "exactly once". -/
theorem methods_per_page_cex :
    (extract_text_from_pdf envC2).methods_used = ["PyMuPDF", "PyMuPDF"] ∧
    ((extract_text_from_pdf envC2).methods_used).count "PyMuPDF" ≠ 1 ∧
    (extract_text_from_pdf envC2b).methods_used =
      ["Multi-language OCR", "Multi-language OCR"] ∧
    ((extract_text_from_pdf envC2b).methods_used).count "Multi-language OCR" ≠ 1 :=
  ⟨by decide, by decide, by decide, by decide⟩

/-- C2 as amended: each direct backend's name is appended once per page
that contributes truthy non-whitespace text — PyMuPDF's multiplicity
equals its per-page contribution count unconditionally, pdfplumber's and
PyPDF2's equal theirs when the preceding accumulated text strips to empty
and are zero otherwise; the standard-OCR and high-DPI-OCR tiers append
their names at most once each, standard OCR exactly once when direct
extraction strips to empty and the 300 DPI tier contributes; and the
multi-language tier appends its name once per page it contributes — its
count equals its per-page contribution count when the first three tiers
strip to empty and is zero otherwise. -/
theorem methods_provenance_counts :
    (∀ env : PdfEnv,
      ((try_direct_text_extraction env).2).count "PyMuPDF" = methodContrib env.fitzPages) ∧
    (∀ env : PdfEnv,
      ((try_direct_text_extraction env).2).count "pdfplumber" =
        if pyStrip (runMethod "PyMuPDF" ("", []) env.fitzPages).1 = ""
        then methodContrib env.plumberPages else 0) ∧
    (∀ env : PdfEnv,
      ((try_direct_text_extraction env).2).count "PyPDF2" =
        if pyStrip (if pyStrip (runMethod "PyMuPDF" ("", []) env.fitzPages).1 = ""
            then runMethod "pdfplumber" (runMethod "PyMuPDF" ("", []) env.fitzPages)
              env.plumberPages
            else runMethod "PyMuPDF" ("", []) env.fitzPages).1 = ""
        then methodContrib env.pypdfPages else 0) ∧
    (∀ env : PdfEnv, ((extract_text_from_pdf env).methods_used).count "OCR" ≤ 1) ∧
    (∀ env : PdfEnv, ((extract_text_from_pdf env).methods_used).count "High-DPI OCR" ≤ 1) ∧
    (∀ env : PdfEnv, pyStrip (try_direct_text_extraction env).1 = "" →
      pyStrip (extract_text_with_enhanced_ocr env 300) ≠ "" →
      ((extract_text_from_pdf env).methods_used).count "OCR" = 1) ∧
    (∀ env : PdfEnv,
      ((extract_text_from_pdf env).methods_used).count "Multi-language OCR" =
        if pyStrip (try_direct_text_extraction env).1 = "" ∧
            pyStrip (extract_text_with_enhanced_ocr env 300) = "" ∧
            pyStrip (extract_text_with_enhanced_ocr env 400) = ""
        then mlContrib env else 0) := by
  refine ⟨try_direct_count_pymupdf, try_direct_count_plumber, try_direct_count_pypdf,
    ?_, ?_, ?_, ?_⟩
  · intro env
    rcases extract_methods_shape env with hm | hm | hm | hm <;> rw [hm]
    · rw [try_direct_count_other env "OCR" (by decide) (by decide) (by decide)]
      decide
    · rw [List.count_append, try_direct_count_other env "OCR" (by decide) (by decide) (by decide)]
      decide
    · rw [List.count_append, try_direct_count_other env "OCR" (by decide) (by decide) (by decide)]
      decide
    · rw [List.count_append, try_direct_count_other env "OCR" (by decide) (by decide) (by decide),
        multiLang_count_other env "OCR" (by decide)]
      decide
  · intro env
    rcases extract_methods_shape env with hm | hm | hm | hm <;> rw [hm]
    · rw [try_direct_count_other env "High-DPI OCR" (by decide) (by decide) (by decide)]
      decide
    · rw [List.count_append,
        try_direct_count_other env "High-DPI OCR" (by decide) (by decide) (by decide)]
      decide
    · rw [List.count_append,
        try_direct_count_other env "High-DPI OCR" (by decide) (by decide) (by decide)]
      decide
    · rw [List.count_append,
        try_direct_count_other env "High-DPI OCR" (by decide) (by decide) (by decide),
        multiLang_count_other env "High-DPI OCR" (by decide)]
      decide
  · intro env h1 h2
    have hm : (extract_text_from_pdf env).methods_used =
        (try_direct_text_extraction env).2 ++ ["OCR"] := by
      simp [extract_text_from_pdf, h1, h2]
    rw [hm, List.count_append, try_direct_count_other env "OCR" (by decide) (by decide) (by decide)]
    decide
  · intro env
    by_cases g1 : pyStrip (try_direct_text_extraction env).1 = ""
    · by_cases g2 : pyStrip (extract_text_with_enhanced_ocr env 300) = ""
      · by_cases g3 : pyStrip (extract_text_with_enhanced_ocr env 400) = ""
        · have hm : (extract_text_from_pdf env).methods_used =
              (try_direct_text_extraction env).2 ++ (multiLangOcr env).2 := by
            simp [extract_text_from_pdf, g1, g2, g3]
          rw [hm, List.count_append,
            try_direct_count_other env "Multi-language OCR" (by decide) (by decide) (by decide),
            multiLang_count_self, if_pos ⟨g1, g2, g3⟩]
          simp
        · have hm : (extract_text_from_pdf env).methods_used =
              (try_direct_text_extraction env).2 ++ ["High-DPI OCR"] := by
            simp [extract_text_from_pdf, g1, g2, g3]
          rw [hm, List.count_append,
            try_direct_count_other env "Multi-language OCR" (by decide) (by decide) (by decide),
            if_neg (fun hand => g3 hand.2.2)]
          decide
      · have hm : (extract_text_from_pdf env).methods_used =
            (try_direct_text_extraction env).2 ++ ["OCR"] := by
          simp [extract_text_from_pdf, g1, g2]
        rw [hm, List.count_append,
          try_direct_count_other env "Multi-language OCR" (by decide) (by decide) (by decide),
          if_neg (fun hand => g2 hand.2.1)]
        decide
    · have hm : (extract_text_from_pdf env).methods_used =
          (try_direct_text_extraction env).2 := by
        simp [extract_text_from_pdf, g1]
      rw [hm,
        try_direct_count_other env "Multi-language OCR" (by decide) (by decide) (by decide),
        if_neg (fun hand => g1 hand.1)]

/-- C2 witness: on a document with no direct text whose 300 DPI OCR
succeeds, "OCR" is recorded exactly once. -/
theorem methods_provenance_witness :
    ((extract_text_from_pdf envW2).methods_used).count "OCR" = 1 :=
  methods_provenance_counts.2.2.2.2.2.1 envW2 (by decide) (by decide)

/-- C3 counterexample: on `envC3a` the 300 DPI rasterization succeeds and
every OCR attempt on its single page raises — a page-level failure — yet
the result is `""` and the 200 DPI reduced fallback (which would recover
text, as the second conjunct shows) is never entered; on `envC3b` the
fallback runs and aborts at its first failing page even though page 2's
default-config OCR succeeds, so failing pages are not skipped within the
fallback. -/
theorem ocr_fallback_trigger_cex :
    extract_text_with_enhanced_ocr envC3a 300 = "" ∧
    ocrFallback envC3a = pageHeader 1 "RECOVERED" ∧
    ocrFallback envC3a ≠ "" ∧
    extract_text_with_enhanced_ocr envC3b 300 = "" ∧
    envC3b.ocr imgB "eng" "" = .ok "SECOND" :=
  ⟨by decide, by decide, by decide, by decide, rfl⟩

/-- C3 as amended: only a pipeline-level failure (the rasterization call
raising) triggers the reduced 200 DPI single-default-configuration
fallback — when rasterization at the requested DPI succeeds the result is
the main per-page path regardless of page-level failures — and within the
fallback the first page whose OCR raises aborts the remaining pages,
keeping only the text accumulated before it. -/
theorem ocr_fallback_scope :
    (∀ (env : PdfEnv) (dpi : Nat) (imgs : List Img), env.convert dpi = .ok imgs →
      extract_text_with_enhanced_ocr env dpi = ocrPagesLoop env "" 0 imgs) ∧
    (∀ (env : PdfEnv) (dpi : Nat) (e : Unit), env.convert dpi = .error e →
      extract_text_with_enhanced_ocr env dpi = ocrFallback env) ∧
    (∀ (env : PdfEnv) (acc : String) (i : Nat) (l1 : List Img) (img : Img) (l2 : List Img),
      env.ocr img "eng" "" = .error () →
      ocrFallbackLoop env acc i (l1 ++ img :: l2) = ocrFallbackLoop env acc i l1) := by
  refine ⟨?_, ?_, ?_⟩
  · intro env dpi imgs h
    unfold extract_text_with_enhanced_ocr
    rw [h]
  · intro env dpi e h
    unfold extract_text_with_enhanced_ocr
    rw [h]
  · intro env acc i l1 img l2 h
    induction l1 generalizing acc i with
    | nil => simp only [List.nil_append, ocrFallbackLoop, h]
    | cons a rest ih =>
      simp only [List.cons_append, ocrFallbackLoop]
      cases ha : env.ocr a "eng" "" with
      | error e2 => rfl
      | ok pt => exact ih _ _

/-- C3 witness: the three amended conjuncts evaluated at concrete
documents — successful 300 DPI rasterization takes the main path, a
failing rasterization takes the fallback, and a fallback whose first page
raises returns only what preceded it. -/
theorem ocr_fallback_scope_witness :
    extract_text_with_enhanced_ocr envW2 300 = ocrPagesLoop envW2 "" 0 [imgA] ∧
    extract_text_with_enhanced_ocr noPdf 300 = ocrFallback noPdf ∧
    ocrFallbackLoop envC3b "" 0 ([] ++ imgA :: [imgB]) = ocrFallbackLoop envC3b "" 0 [] :=
  ⟨ocr_fallback_scope.1 envW2 300 [imgA] rfl,
   ocr_fallback_scope.2.1 noPdf 300 () rfl,
   ocr_fallback_scope.2.2 envC3b "" 0 [] imgA [imgB] rfl⟩

/-- C7 counterexample: PyMuPDF reads page 1 ("hello") and raises on
page 2; the exception is swallowed but the backend's output is the
non-empty partial text, not empty output — and consequently pdfplumber,
which could read "world", is never consulted. -/
theorem direct_partial_text_cex :
    envC7.fitzPages = .ok [.ok "hello", .error ()] ∧
    envC7.plumberPages = .ok [.ok "world"] ∧
    try_direct_text_extraction envC7 = ("hello\n", ["PyMuPDF"]) :=
  ⟨rfl, rfl, by decide⟩

/-- C7 as amended: the backends run in the fixed order with each tried
only if the accumulated text strips to empty; a backend failure before any
page contributed is equivalent to empty output (an open failure behaves
exactly like an empty document), a page-level failure mid-backend keeps
the text accumulated before it, and no failure propagates (the function is
total over every oracle). -/
theorem direct_cascade_props :
    (∀ env : PdfEnv,
      try_direct_text_extraction { env with fitzPages := .error () } =
        try_direct_text_extraction { env with fitzPages := .ok [] }) ∧
    (∀ env : PdfEnv, pyStrip (runMethod "PyMuPDF" ("", []) env.fitzPages).1 ≠ "" →
      try_direct_text_extraction env = runMethod "PyMuPDF" ("", []) env.fitzPages) ∧
    (∀ (name : String) (acc : String × List String) (l1 l2 : List (Except Unit String)),
      runMethodPages name acc (l1 ++ .error () :: l2) = runMethodPages name acc l1) := by
  refine ⟨?_, ?_, ?_⟩
  · intro env
    rfl
  · intro env h
    simp [try_direct_text_extraction, h]
  · intro name acc l1 l2
    induction l1 generalizing acc with
    | nil => simp only [List.nil_append, runMethodPages]
    | cons p rest ih =>
      cases p with
      | error e => rfl
      | ok pt =>
        simp only [List.cons_append, runMethodPages]
        exact ih _

/-- C7 witness: on a document whose PyMuPDF text is non-empty the later
backends do not run — the result is PyMuPDF's alone even though pdfplumber
has text available. -/
theorem direct_cascade_witness :
    try_direct_text_extraction envW7 = runMethod "PyMuPDF" ("", []) envW7.fitzPages :=
  direct_cascade_props.2.1 envW7 (by decide)

end AIDoc
